import Mathlib

/-!
Verification development for the brain-ml stroke-risk backend.

The Python sources (src/backend/ml_service.py, app.py, models.py) are
shallowly embedded below: pure functions become Lean functions over ℚ
(probabilities and lab values are idealized as rationals, which preserves
every ordering comparison the code performs), dict-valued request data
becomes association lists over a small Python-value type, and the fallible
parts of the pipeline (Python exceptions caught by try/except) become
Except-valued computations whose error branch is matched exactly where the
source catches.
-/

namespace BrainML

/-! ## Risk-level and confidence classification (ml_service.py) -/

/-- Embedding of StrokeRiskPredictor._classify_risk_level
(ml_service.py lines 268-275). -/
def classifyRiskLevel (p : ℚ) : String :=
  if p < 3/10 then "LOW"
  else if p < 7/10 then "MODERATE"
  else "HIGH"

/-- Embedding of StrokeRiskPredictor._calculate_confidence
(ml_service.py lines 376-383).  The HIGH band is tested first, exactly as
in the source. -/
def calculateConfidence (p : ℚ) : String :=
  if p < 2/10 ∨ p > 8/10 then "HIGH"
  else if p < 4/10 ∨ p > 6/10 then "MEDIUM"
  else "LOW"

/-! ## Python values and patient-data dictionaries

Request payloads and the `patient_data` dict of ml_service.py are mappings
from strings to JSON-ish Python values.  We embed the value type and the
dict operations the code uses (`in`, indexing, assignment, `str()`,
`float()`, truthiness). -/

/-- A Python value as it occurs in patient-data dictionaries: a string, a
number (int/float idealized as ℚ), a bool, or None. -/
inductive PyVal where
  | str (s : String)
  | num (q : ℚ)
  | bool (b : Bool)
  | null
deriving DecidableEq

/-- A patient-data dictionary: an association list (first binding wins,
assignment replaces in place, as for a Python dict). -/
def PatientData : Type := List (String × PyVal)

instance : DecidableEq PatientData := by
  unfold PatientData
  infer_instance

/-- Dict assignment d[k] = v: replace the binding of k, or append it. -/
def setKey : PatientData → String → PyVal → PatientData
  | [], k, v => [(k, v)]
  | (k₀, v₀) :: rest, k, v =>
    if k₀ = k then (k, v) :: rest else (k₀, v₀) :: setKey rest k v

/-- Split a character list at every occurrence of sep (Python str.split:
an empty input yields one empty field, separators at the ends yield empty
fields). -/
def splitCharAux (sep : Char) (cur : List Char) : List Char → List (List Char)
  | [] => [cur.reverse]
  | c :: cs =>
    if c = sep then cur.reverse :: splitCharAux sep [] cs
    else splitCharAux sep (c :: cur) cs

/-- Python s.split(sep) for a single-character separator. -/
def splitChar (sep : Char) (l : List Char) : List (List Char) :=
  splitCharAux sep [] l

def isDigitChar (c : Char) : Bool := decide ('0' ≤ c) && decide (c ≤ '9')

def digitVal (c : Char) : ℕ := c.toNat - 48

/-- Numeric value of a digit string (most significant first). -/
def natOfDigits (l : List Char) : ℕ :=
  l.foldl (fun a c => a * 10 + digitVal c) 0

/-- Python float(string) on plain decimal literals: optional sign, digits,
optional fractional part (scientific notation, inf and nan are out of the
input space the backend produces and are not modelled). -/
def parseFloatChars (cs : List Char) : Option ℚ :=
  let core : List Char → Option ℚ := fun l =>
    match splitChar '.' l with
    | [ds] =>
      if ds ≠ [] ∧ ds.all isDigitChar then some (natOfDigits ds) else none
    | [ds, fs] =>
      if (ds ≠ [] ∨ fs ≠ []) ∧ ds.all isDigitChar ∧ fs.all isDigitChar then
        some ((natOfDigits ds : ℚ) + (natOfDigits fs : ℚ) / 10 ^ fs.length)
      else none
    | _ => none
  match cs with
  | '-' :: rest => (core rest).map (fun q => -q)
  | '+' :: rest => core rest
  | _ => core cs

/-- Python str(v); the textual form of a number is approximated by Lean's
rational rendering (it is only ever compared against encoder class names,
which are alphabetic). -/
def pyStr : PyVal → String
  | .str s => s
  | .num q => toString q
  | .bool b => if b then "True" else "False"
  | .null => "None"

/-- Python float(v): numbers pass through, bools become 0/1, numeric
strings parse, everything else raises (ValueError/TypeError). -/
def pyFloat : PyVal → Except String ℚ
  | .num q => .ok q
  | .bool b => .ok (if b then 1 else 0)
  | .str s =>
    match parseFloatChars s.data with
    | some q => .ok q
    | none => .error ("could not convert string to float: " ++ s)
  | .null => .error "float() argument must not be None"

/-- Python truthiness of a value (used by `if not data` and int(bool(x))). -/
def pyBool : PyVal → Bool
  | .num q => decide (q ≠ 0)
  | .str s => decide (s ≠ "")
  | .bool b => b
  | .null => false

/-! ## Feature preprocessing (ml_service.py, preprocess_features) -/

/-- The categorical features handled by label encoding
(ml_service.py line 159). -/
def categoricalFeatures : List String :=
  ["gender", "ever_married", "work_type", "Residence_type", "smoking_status"]

/-- A fitted scikit-learn LabelEncoder is its classes_ array;
transform([s])[0] is the index of s in it. -/
def Encoders : Type := List (String × List String)

/-- One iteration of the categorical-encoding loop
(ml_service.py lines 161-181): known classes map to their encoder index,
unseen categories map to the default 0 with a logged warning, and the
manual fallback without an encoder calls .lower(), which raises
AttributeError on non-string values (caught by the enclosing try). -/
def encodeCategorical (encs : Encoders) (data : PatientData) (f : String) :
    Except String PatientData :=
  match data.lookup f with
  | none => .ok data
  | some v =>
    match encs.lookup f with
    | some classes =>
      if pyStr v ∈ classes then
        .ok (setKey data f (.num (classes.indexOf (pyStr v))))
      else
        .ok (setKey data f (.num 0))
    | none =>
      if f = "gender" then
        match v with
        | .str s => .ok (setKey data f (.num (if s.toLower = "male" then 1 else 0)))
        | _ => .error "AttributeError: lower"
      else if f = "ever_married" then
        match v with
        | .str s => .ok (setKey data f (.num (if s.toLower = "yes" then 1 else 0)))
        | _ => .error "AttributeError: lower"
      else if f = "Residence_type" then
        match v with
        | .str s => .ok (setKey data f (.num (if s.toLower = "urban" then 1 else 0)))
        | _ => .error "AttributeError: lower"
      else .ok (setKey data f (.num 0))

/-- residence_type vs Residence_type aliasing
(ml_service.py lines 183-187). -/
def fixResidence (data : PatientData) : PatientData :=
  match data.lookup "residence_type", data.lookup "Residence_type" with
  | some v, none => setKey data "Residence_type" v
  | none, none => setKey data "Residence_type" (.num 0)
  | _, _ => data

/-- The feature-vector loop (ml_service.py lines 190-196): each feature
name present in the data contributes float(value) (which may raise), a
missing feature contributes 0.0 with a logged warning. -/
def buildVector (data : PatientData) : List String → Except String (List ℚ)
  | [] => .ok []
  | f :: rest =>
    match (match data.lookup f with | some v => pyFloat v | none => .ok 0) with
    | .error e => .error e
    | .ok x =>
      match buildVector data rest with
      | .error e => .error e
      | .ok xs => .ok (x :: xs)

/-- The loaded binary classifier: model.predict(X)[0] and
model.predict_proba(X)[0][1], pure functions of the (fixed) fitted model. -/
structure ModelFuns where
  predictFun : List ℚ → ℤ
  probaFun : List ℚ → ℚ

/-- The state of a StrokeRiskPredictor after __init__ (ml_service.py):
model and scaler may be absent, label encoders and the ordered
feature-name list come from the loaded artifact bundle. -/
structure Predictor where
  model : Option ModelFuns
  scaler : Option (List ℚ → List ℚ)
  labelEncoders : Encoders
  featureNames : List String
  modelName : String
  modelVersion : String

/-- The body of the try-block of preprocess_features
(ml_service.py lines 154-207): categorical encoding, residence-key
aliasing, feature-vector construction, then scaling. -/
def preprocessSteps (st : Predictor) (pd : PatientData) :
    Except String (List ℚ) :=
  match categoricalFeatures.foldlM (fun acc f => encodeCategorical st.labelEncoders acc f) pd with
  | .error e => .error e
  | .ok d =>
    match buildVector (fixResidence d) st.featureNames with
    | .error e => .error e
    | .ok v =>
      match st.scaler with
      | some sc => .ok (sc v)
      | none => .ok v

/-- StrokeRiskPredictor.preprocess_features (ml_service.py lines 152-212):
the blanket except returns the all-zero vector of feature-name length. -/
def preprocess_features (st : Predictor) (pd : PatientData) : List ℚ :=
  match preprocessSteps st pd with
  | .ok v => v
  | .error _ => List.replicate st.featureNames.length 0

/-! ## Risk factors, recommendations and predict_risk (ml_service.py) -/

/-- Python dict.get(k, default). -/
def getDefault (data : PatientData) (k : String) (dflt : PyVal) : PyVal :=
  match data.lookup k with
  | some v => v
  | none => dflt

/-- Python substring membership needle in hay. -/
def pyIn (needle hay : String) : Bool :=
  decide (needle.data <:+: hay.data)

/-- Python int(q): truncation toward zero. -/
def pyInt (q : ℚ) : ℤ :=
  if 0 ≤ q then ⌊q⌋ else ⌈q⌉

/-- Round to the nearest integer, ties to even (Python round / format). -/
def roundHalfEven (q : ℚ) : ℤ :=
  if q - ⌊q⌋ < 1/2 then ⌊q⌋
  else if q - ⌊q⌋ > 1/2 then ⌊q⌋ + 1
  else if ⌊q⌋ % 2 = 0 then ⌊q⌋ else ⌊q⌋ + 1

/-- Python format specifier .1f on an idealized (rational) float. -/
def fmtFixed1 (q : ℚ) : String :=
  let n := roundHalfEven (q * 10)
  let sign := if n < 0 then "-" else ""
  sign ++ toString (n.natAbs / 10) ++ "." ++ toString (n.natAbs % 10)

/-- The try-block of _identify_risk_factors (ml_service.py lines 281-320):
factors are appended in a fixed order; float() on a malformed age, glucose
or bmi value raises (caught by the enclosing except). -/
def identifyRiskFactorsSteps (pd : PatientData) : Except String (List String) :=
  match pyFloat (getDefault pd "age" (.num 0)) with
  | .error e => .error e
  | .ok age =>
    let ageF : List String :=
      if age > 65 then ["Advanced age (" ++ toString (pyInt age) ++ " years)"]
      else if age > 50 then ["Older age (" ++ toString (pyInt age) ++ " years)"]
      else []
    let hypF : List String :=
      if pyBool (getDefault pd "hypertension" (.num 0)) then ["Hypertension"] else []
    let heartF : List String :=
      if pyBool (getDefault pd "heart_disease" (.num 0)) then ["Heart disease"] else []
    match pyFloat (getDefault pd "avg_glucose_level" (.num 0)) with
    | .error e => .error e
    | .ok glucose =>
      let gluF : List String :=
        if glucose > 140 then ["High glucose level (" ++ fmtFixed1 glucose ++ " mg/dL)"]
        else if glucose > 100 then ["Elevated glucose level (" ++ fmtFixed1 glucose ++ " mg/dL)"]
        else []
      match pyFloat (getDefault pd "bmi" (.num 0)) with
      | .error e => .error e
      | .ok bmi =>
        let bmiF : List String :=
          if bmi > 30 then ["Obesity (BMI: " ++ fmtFixed1 bmi ++ ")"]
          else if bmi > 25 then ["Overweight (BMI: " ++ fmtFixed1 bmi ++ ")"]
          else []
        let smoking := (pyStr (getDefault pd "smoking_status" (.str ""))).toLower
        let smokeF : List String :=
          if pyIn "smokes" smoking then ["Current smoking"]
          else if pyIn "formerly" smoking then ["Former smoking history"]
          else []
        let famF : List String :=
          if pyBool (getDefault pd "family_history_stroke" (.num 0)) then
            ["Family history of stroke"]
          else []
        let alcohol := (pyStr (getDefault pd "alcohol_consumption" (.str ""))).toLower
        let alcF : List String :=
          if pyIn "heavy" alcohol then ["Heavy alcohol consumption"] else []
        let fs := ageF ++ hypF ++ heartF ++ gluF ++ bmiF ++ smokeF ++ famF ++ alcF
        .ok (if fs = [] then ["No major risk factors identified"] else fs)

/-- StrokeRiskPredictor._identify_risk_factors (ml_service.py
lines 277-326) with its own blanket except. -/
def identify_risk_factors (pd : PatientData) : List String :=
  match identifyRiskFactorsSteps pd with
  | .ok l => l
  | .error _ => ["Unable to analyze risk factors"]

/-- StrokeRiskPredictor._generate_recommendations (ml_service.py
lines 328-374). -/
def generate_recommendations (riskLevel : String) (factors : List String) :
    List String :=
  let base : List String :=
    if riskLevel = "LOW" then
      ["Maintain a healthy lifestyle with regular exercise",
       "Follow a balanced diet low in sodium and saturated fats",
       "Schedule regular health check-ups",
       "Monitor blood pressure regularly"]
    else if riskLevel = "MODERATE" then
      ["Consult with your healthcare provider about stroke prevention",
       "Consider lifestyle modifications to reduce risk factors",
       "Monitor blood pressure and glucose levels regularly",
       "Implement stress management techniques",
       "Consider medication review with your doctor"]
    else
      ["Seek immediate medical consultation for stroke prevention strategies",
       "Work closely with healthcare team to manage risk factors",
       "Consider medication for blood pressure and cholesterol management",
       "Implement aggressive lifestyle changes",
       "Regular monitoring by healthcare professionals"]
  let fstr := (String.intercalate " " factors).toLower
  let smokeR : List String :=
    if pyIn "smoking" fstr then
      ["Quit smoking immediately - seek smoking cessation support"]
    else []
  let weightR : List String :=
    if pyIn "obesity" fstr ∨ pyIn "overweight" fstr then
      ["Work with a nutritionist for healthy weight management"]
    else []
  let hypR : List String :=
    if pyIn "hypertension" fstr then
      ["Follow prescribed blood pressure medications and monitor regularly"]
    else []
  let gluR : List String :=
    if pyIn "glucose" fstr then
      ["Monitor blood sugar levels and follow diabetic management plan"]
    else []
  base ++ smokeR ++ weightR ++ hypR ++ gluR ++
    ["⚠️ Always consult healthcare professionals before making medical decisions"]

/-- The result dictionary of predict_risk (ml_service.py lines 239-248 and
the fallback of lines 256-266; the error key is present only in the
fallback). -/
structure PredResult where
  prediction : ℤ
  probability_score : ℚ
  risk_level : String
  confidence : String
  risk_factors : List String
  recommendations : List String
  model_version : String
  model_name : String
  error : Option String

/-- StrokeRiskPredictor.predict_risk (ml_service.py lines 214-266).  The
only statement in the try-block that can raise is the model-is-None check
(preprocess_features and _identify_risk_factors catch their own
exceptions, and the fitted model functions are pure); raising lands in the
fallback result of lines 256-266. -/
def predict_risk (st : Predictor) (pd : PatientData) : PredResult :=
  match st.model with
  | none =>
    { prediction := 0
      probability_score := 1/10
      risk_level := "LOW"
      confidence := "LOW"
      risk_factors := ["Unable to analyze - system error"]
      recommendations := ["Please consult a healthcare professional"]
      model_version := st.modelVersion
      model_name := st.modelName ++ " (Error Mode)"
      error := some "Model not loaded" }
  | some m =>
    let processed := preprocess_features st pd
    let probability := m.probaFun processed
    let riskLevel := classifyRiskLevel probability
    let factors := identify_risk_factors pd
    { prediction := m.predictFun processed
      probability_score := probability
      risk_level := riskLevel
      confidence := calculateConfidence probability
      risk_factors := factors
      recommendations := generate_recommendations riskLevel factors
      model_version := st.modelVersion
      model_name := st.modelName
      error := none }

/-- ml_service.get_predictor (lines 400-405): the lazily-created module
singleton, threaded explicitly; env is the predictor that
StrokeRiskPredictor() constructs from the on-disk artifacts. -/
def get_predictor (env : Predictor) :
    Option Predictor → Predictor × Option Predictor
  | none => (env, some env)
  | some p => (p, some p)

/-- ml_service.predict_stroke_risk (lines 407-413) with the global
singleton threaded explicitly: returns the result and the new global. -/
def predict_stroke_risk (env : Predictor) (g : Option Predictor)
    (pd : PatientData) : PredResult × Option Predictor :=
  let r := get_predictor env g
  (predict_risk r.1 pd, r.2)

/-! ## Users, tokens and the authentication helpers (app.py, models.py) -/

/-- A row of the users table (models.py lines 8-25): the fields the
authentication code reads. -/
structure UserR where
  id : ℕ
  name : String
  email : String
  passwordHash : String
  isActive : Bool
deriving DecidableEq

/-- Decimal digit character (str() of a digit). -/
def digitChar (d : ℕ) : Char := Char.ofNat (48 + d)

/-- Python str(n) for a natural number: decimal digits, most significant
first. -/
def natToDigits (n : ℕ) : List Char :=
  if h : n < 10 then [digitChar n]
  else natToDigits (n / 10) ++ [digitChar (n % 10)]
decreasing_by exact Nat.div_lt_self (by omega) (by omega)

/-- Python int(string) restricted to plain digit strings (the token parser
only ever feeds it the id field of a token). -/
def parseNatChars (l : List Char) : Option ℕ :=
  if l ≠ [] ∧ l.all isDigitChar then some (natOfDigits l) else none

/-- Python str.startswith. -/
def pyStartsWith (t pre : List Char) : Bool := pre.isPrefixOf t

/-- A datetime.utcnow().timestamp() value: seconds and a fractional part,
rendered as digits separated by a dot. -/
structure Timestamp where
  sec : ℕ
  micro : ℕ

/-- str() of a timestamp float. -/
def tsRender (t : Timestamp) : List Char :=
  natToDigits t.sec ++ '.' :: natToDigits t.micro

/-- The access token built at login (app.py line 249): the fixed prefix,
the user id and the timestamp, joined by underscores. -/
def makeToken (uid : ℕ) (t : Timestamp) : String :=
  String.mk ("user_token_".data ++ natToDigits uid ++ '_' :: tsRender t)

/-- The token-parsing logic shared by validate_token and get_current_user
(app.py lines 278-281 and 306-309): check the prefix, split on
underscores, read the third part as an integer; a malformed id raises
ValueError, which the enclosing except turns into None. -/
def parseTokenUserId (token : String) : Option ℕ :=
  if pyStartsWith token.data "user_token_".data then
    let parts := splitChar '_' token.data
    if 3 ≤ parts.length then parseNatChars (parts.getD 2 []) else none
  else none

/-- app.py get_current_user (lines 296-315): extract the bearer token from
the Authorization header, parse the user id out of it, and return the user
only when it exists and is active. -/
def get_current_user (users : List UserR) (authHeader : Option String) :
    Option UserR :=
  match authHeader with
  | none => none
  | some h =>
    if pyStartsWith h.data "Bearer ".data then
      match parseTokenUserId (String.mk ((splitChar ' ' h.data).getD 1 [])) with
      | some uid =>
        match users.find? (fun u => u.id = uid) with
        | some u => if u.isActive then some u else none
        | none => none
      | none => none
    else none

/-- Properties of digit characters, by direct computation. -/
theorem digitChar_spec :
    ∀ d, d < 10 → isDigitChar (digitChar d) = true ∧
      digitVal (digitChar d) = d ∧ digitChar d ≠ '_' ∧
      digitChar d ≠ '.' ∧ digitChar d ≠ ' ' := by decide

/-- str(n) is never empty. -/
theorem natToDigits_ne_nil (n : ℕ) : natToDigits n ≠ [] := by
  rw [natToDigits]
  split
  · simp
  · simp

/-- str(n) consists of digit characters. -/
theorem natToDigits_all_digits (n : ℕ) :
    (natToDigits n).all isDigitChar = true := by
  induction n using Nat.strong_induction_on with
  | _ n ih =>
    rw [natToDigits]
    split
    · next h => simp [(digitChar_spec n h).1]
    · next h =>
      rw [List.all_append]
      have h1 := ih (n / 10) (Nat.div_lt_self (by omega) (by omega))
      have h2 := (digitChar_spec (n % 10) (Nat.mod_lt n (by omega))).1
      simp [h1, h2]

/-- A digit character is not an underscore, a dot or a space. -/
theorem isDigitChar_ne (c : Char) (h : isDigitChar c = true) :
    c ≠ '_' ∧ c ≠ '.' ∧ c ≠ ' ' := by
  refine ⟨?_, ?_, ?_⟩ <;> rintro rfl <;> exact absurd h (by decide)

/-- None of the separator characters occurs in an all-digit string. -/
theorem sep_not_mem_of_all_digits (l : List Char)
    (h : l.all isDigitChar = true) : '_' ∉ l ∧ '.' ∉ l ∧ ' ' ∉ l := by
  rw [List.all_eq_true] at h
  refine ⟨fun hm => ?_, fun hm => ?_, fun hm => ?_⟩ <;>
    exact absurd (h _ hm) (by decide)

/-- Accumulating a digit on the right. -/
theorem natOfDigits_append_singleton (l : List Char) (c : Char) :
    natOfDigits (l ++ [c]) = natOfDigits l * 10 + digitVal c := by
  simp [natOfDigits, List.foldl_append]

/-- Parsing inverts rendering for natural numbers. -/
theorem natOfDigits_natToDigits (n : ℕ) :
    natOfDigits (natToDigits n) = n := by
  induction n using Nat.strong_induction_on with
  | _ n ih =>
    rw [natToDigits]
    split
    · next h => simp [natOfDigits, (digitChar_spec n h).2.1]
    · next h =>
      rw [natOfDigits_append_singleton,
        ih (n / 10) (Nat.div_lt_self (by omega) (by omega)),
        (digitChar_spec (n % 10) (Nat.mod_lt n (by omega))).2.1]
      omega

/-- int(str(n)) = n. -/
theorem parseNatChars_natToDigits (n : ℕ) :
    parseNatChars (natToDigits n) = some n := by
  simp [parseNatChars, natToDigits_ne_nil, natToDigits_all_digits,
    natOfDigits_natToDigits]

/-- Splitting a list containing no separator yields one field. -/
theorem splitCharAux_no_sep (sep : Char) (l : List Char) (h : sep ∉ l) :
    ∀ cur, splitCharAux sep cur l = [cur.reverse ++ l] := by
  induction l with
  | nil => intro cur; simp [splitCharAux]
  | cons c cs ih =>
    intro cur
    have hc : ¬(c = sep) := fun e => h (by simp [e])
    have hcs : sep ∉ cs := fun e => h (by simp [e])
    simp [splitCharAux, hc, ih hcs]

/-- Splitting peels off the field before the first separator. -/
theorem splitCharAux_sep_split (sep : Char) (l rest : List Char)
    (h : sep ∉ l) :
    ∀ cur, splitCharAux sep cur (l ++ sep :: rest) =
      (cur.reverse ++ l) :: splitCharAux sep [] rest := by
  induction l with
  | nil => intro cur; simp [splitCharAux]
  | cons c cs ih =>
    intro cur
    have hc : ¬(c = sep) := fun e => h (by simp [e])
    have hcs : sep ∉ cs := fun e => h (by simp [e])
    simp [splitCharAux, hc, ih hcs]

/-- A list is a Boolean prefix of itself followed by anything. -/
theorem isPrefixOf_append_self (l₁ l₂ : List Char) :
    l₁.isPrefixOf (l₁ ++ l₂) = true := by
  induction l₁ with
  | nil => simp [List.isPrefixOf]
  | cons c cs ih => simpa [List.isPrefixOf] using ih

/-- The underscore does not occur in the rendered timestamp. -/
theorem underscore_not_mem_tsRender (t : Timestamp) :
    '_' ∉ tsRender t := by
  intro hm
  rcases List.mem_append.mp hm with h | h
  · exact (sep_not_mem_of_all_digits _ (natToDigits_all_digits t.sec)).1 h
  · rcases List.mem_cons.mp h with h | h
    · exact absurd h (by decide)
    · exact (sep_not_mem_of_all_digits _ (natToDigits_all_digits t.micro)).1 h

/-- Splitting a freshly minted token on underscores yields exactly the
prefix words, the id digits and the timestamp. -/
theorem splitChar_makeToken (uid : ℕ) (t : Timestamp) :
    splitChar '_' (makeToken uid t).data =
      ["user".data, "token".data, natToDigits uid, tsRender t] := by
  have hshape : (makeToken uid t).data =
      "user".data ++ '_' :: ("token".data ++ '_' ::
        (natToDigits uid ++ '_' :: tsRender t)) := rfl
  rw [splitChar, hshape,
    splitCharAux_sep_split '_' "user".data _ (by decide),
    splitCharAux_sep_split '_' "token".data _ (by decide),
    splitCharAux_sep_split '_' (natToDigits uid) _
      (sep_not_mem_of_all_digits _ (natToDigits_all_digits uid)).1,
    splitCharAux_no_sep '_' (tsRender t) (underscore_not_mem_tsRender t)]
  rfl

/-- Parsing a freshly minted token recovers the user id. -/
theorem parseTokenUserId_makeToken (uid : ℕ) (t : Timestamp) :
    parseTokenUserId (makeToken uid t) = some uid := by
  have hshape : (makeToken uid t).data =
      "user_token_".data ++ (natToDigits uid ++ '_' :: tsRender t) := rfl
  rw [parseTokenUserId, pyStartsWith, hshape, isPrefixOf_append_self]
  rw [← hshape, splitChar_makeToken]
  simpa using parseNatChars_natToDigits uid

/-- No space occurs in a freshly minted token. -/
theorem space_not_mem_makeToken (uid : ℕ) (t : Timestamp) :
    ' ' ∉ (makeToken uid t).data := by
  intro hm
  have hm' : ' ' ∈ "user_token_".data ++
      (natToDigits uid ++ '_' :: tsRender t) := hm
  rcases List.mem_append.mp hm' with h | h
  · exact absurd h (by decide)
  · rcases List.mem_append.mp h with h | h
    · exact (sep_not_mem_of_all_digits _ (natToDigits_all_digits uid)).2.2 h
    · rcases List.mem_cons.mp h with h | h
      · exact absurd h (by decide)
      · rcases List.mem_append.mp h with h | h
        · exact (sep_not_mem_of_all_digits _
            (natToDigits_all_digits t.sec)).2.2 h
        · rcases List.mem_cons.mp h with h | h
          · exact absurd h (by decide)
          · exact (sep_not_mem_of_all_digits _
              (natToDigits_all_digits t.micro)).2.2 h

/-- get_current_user on a well-formed bearer token reduces to the
exists-and-active lookup of the embedded user id. -/
theorem get_current_user_makeToken (users : List UserR) (uid : ℕ)
    (t : Timestamp) :
    get_current_user users (some ("Bearer " ++ makeToken uid t)) =
      (match users.find? (fun u => u.id = uid) with
       | some u => if u.isActive then some u else none
       | none => none) := by
  have hdata : ("Bearer " ++ makeToken uid t).data =
      "Bearer".data ++ ' ' :: (makeToken uid t).data := by
    cases hmk : makeToken uid t with
    | mk l => rfl
  have hpre : ("Bearer " ++ makeToken uid t).data =
      "Bearer ".data ++ (makeToken uid t).data := by
    rw [hdata]; rfl
  have hsplit : splitChar ' ' ("Bearer ".data ++ (makeToken uid t).data) =
      ["Bearer".data, (makeToken uid t).data] := by
    have hb : "Bearer ".data ++ (makeToken uid t).data =
        "Bearer".data ++ ' ' :: (makeToken uid t).data := rfl
    rw [hb, splitChar,
      splitCharAux_sep_split ' ' "Bearer".data _ (by decide),
      splitCharAux_no_sep ' ' _ (space_not_mem_makeToken uid t)]
    rfl
  rw [get_current_user, pyStartsWith, hpre, isPrefixOf_append_self, hsplit]
  have hparse : parseTokenUserId ⟨(makeToken uid t).data⟩ = some uid :=
    parseTokenUserId_makeToken uid t
  have hgetd : ["Bearer".data, (makeToken uid t).data].getD 1 [] =
    (makeToken uid t).data := rfl
  rw [hgetd, hparse]
  simp

/-- C7: for every user id n and login timestamp, the token
"user_token_" + n + "_" + timestamp parses back (split on underscores,
third part) to exactly n; the token's content is only prefix, id and
timestamp, so validation is timestamp-independent (no expiry, no
signature); and request handling via get_current_user re-checks that the
recovered user exists and is active. -/
theorem token_roundtrip_spec (uid : ℕ) (t t' : Timestamp)
    (users : List UserR) :
    parseTokenUserId (makeToken uid t) = some uid ∧
    get_current_user users (some ("Bearer " ++ makeToken uid t)) =
      (match users.find? (fun u => u.id = uid) with
       | some u => if u.isActive then some u else none
       | none => none) ∧
    get_current_user users (some ("Bearer " ++ makeToken uid t)) =
      get_current_user users (some ("Bearer " ++ makeToken uid t')) := by
  refine ⟨parseTokenUserId_makeToken uid t,
    get_current_user_makeToken users uid t, ?_⟩
  rw [get_current_user_makeToken users uid t,
    get_current_user_makeToken users uid t']

/-! ## HTTP responses and the predict / login endpoints (app.py) -/

/-- A top-level JSON value of a response body.  Values no claim inspects
(nested result objects, timestamps, user dicts) are carried where they
matter and collapsed to `nested` where only the key is observable. -/
inductive JVal where
  | s (v : String)
  | n (q : ℚ)
  | b (v : Bool)
  | arr (vs : List String)
  | pred (r : PredResult)
  | nested
deriving Inhabited

/-- An HTTP response: status code and JSON object body. -/
structure Resp where
  status : ℕ
  body : List (String × JVal)

/-- Whether a response body contains a given top-level key. -/
def hasKey (r : Resp) (k : String) : Bool := (r.body.lookup k).isSome

/-- A JSON request as the handlers see it (request.is_json and
request.get_json()). -/
structure Request where
  isJson : Bool
  body : Option PatientData

/-- The required fields of /api/predict (app.py lines 334-337). -/
def requiredFields : List String :=
  ["age", "gender", "hypertension", "heart_disease", "ever_married",
   "work_type", "avg_glucose_level", "bmi", "smoking_status"]

/-- The missing-field scan of /api/predict (app.py lines 340-343): a field
is missing when absent or bound to None. -/
def missingFields (data : PatientData) : List String :=
  requiredFields.filter (fun f =>
    match data.lookup f with
    | none => true
    | some .null => true
    | some _ => false)

/-- The registered 400 handler (app.py lines 84-90). -/
def errorHandler400 : Resp :=
  ⟨400, [("error", .s "Bad Request"),
         ("message", .s "The request could not be understood by the server"),
         ("status_code", .n 400)]⟩

/-- The registered 401 handler (app.py lines 92-98). -/
def errorHandler401 : Resp :=
  ⟨401, [("error", .s "Unauthorized"),
         ("message", .s "Authentication required"),
         ("status_code", .n 401)]⟩

/-- The registered 404 handler (app.py lines 100-110). -/
def errorHandler404 : Resp :=
  ⟨404, [("error", .s "Not Found"),
         ("message", .s "The requested endpoint does not exist"),
         ("status_code", .n 404),
         ("available_endpoints",
          .arr ["/", "/api/info", "/api/auth/signup", "/api/auth/login",
                "/api/predict", "/api/history", "/api/statistics"])]⟩

/-- The registered 500 handler (app.py lines 112-119). -/
def errorHandler500 : Resp :=
  ⟨500, [("error", .s "Internal Server Error"),
         ("message", .s "An unexpected error occurred"),
         ("status_code", .n 500)]⟩

/-- The fallback prediction result used when the ML service is not
importable (app.py lines 395-403; that dict carries no prediction int, the
response only forwards it, so the field defaults to 0 here). -/
def demoModeResult : PredResult :=
  { prediction := 0
    probability_score := 35/100
    risk_level := "MODERATE"
    confidence := "MEDIUM"
    risk_factors := ["Demo mode - ML service not available"]
    recommendations := ["Consult healthcare provider", "Regular health monitoring"]
    model_version := "1.0.0"
    model_name := "Demo Model"
    error := none }

/-- The patient_data dict built by /api/predict (app.py lines 369-382). -/
def buildPatientData (data : PatientData) (age glucose bmi : ℚ) :
    PatientData :=
  [("age", .num age),
   ("gender", .str (pyStr (getDefault data "gender" .null))),
   ("hypertension",
    .num (if pyBool (getDefault data "hypertension" .null) then 1 else 0)),
   ("heart_disease",
    .num (if pyBool (getDefault data "heart_disease" .null) then 1 else 0)),
   ("ever_married", .str (pyStr (getDefault data "ever_married" .null))),
   ("work_type", .str (pyStr (getDefault data "work_type" .null))),
   ("Residence_type",
    .str (pyStr (getDefault data "residence_type"
      (getDefault data "Residence_type" (.str "Urban"))))),
   ("avg_glucose_level", .num glucose),
   ("bmi", .num bmi),
   ("smoking_status", .str (pyStr (getDefault data "smoking_status" .null))),
   ("family_history_stroke",
    .num (if pyBool (getDefault data "family_history_stroke" (.num 0)) then 1 else 0)),
   ("alcohol_consumption",
    .str (pyStr (getDefault data "alcohol_consumption" (.str "Never"))))]

/-- The /api/predict handler (app.py lines 318-445), up to the JSON
response.  The database save (lines 406-421) cannot alter the response (its
exceptions are swallowed); st is the loaded predictor singleton.  Keys that
the missing-field scan guarantees present are re-read with lookup; the
unreachable absent case is the KeyError branch of the outer except
(status 500). -/
def predictEndpoint (st : Predictor) (mlAvail : Bool) (req : Request) :
    Resp :=
  if ¬ req.isJson then ⟨400, [("error", .s "Request must be JSON")]⟩
  else
    match req.body with
    | none => ⟨400, [("error", .s "Request body is required")]⟩
    | some data =>
      if data = ([] : PatientData) then
        ⟨400, [("error", .s "Request body is required")]⟩
      else if missingFields data ≠ [] then
        ⟨400, [("error", .s "Missing required fields"),
               ("missing_fields", .arr (missingFields data))]⟩
      else
        match data.lookup "age" with
        | none => ⟨500, [("error", .s "Internal server error"),
                         ("message", .s "KeyError: age")]⟩
        | some vAge =>
          match pyFloat vAge with
          | .error e =>
            ⟨400, [("error", .s ("Invalid numeric values: " ++ e))]⟩
          | .ok age =>
            if age < 0 ∨ age > 120 then
              ⟨400, [("error", .s "Age must be between 0 and 120")]⟩
            else
              match data.lookup "avg_glucose_level" with
              | none => ⟨500, [("error", .s "Internal server error"),
                               ("message", .s "KeyError: avg_glucose_level")]⟩
              | some vGlu =>
                match pyFloat vGlu with
                | .error e =>
                  ⟨400, [("error", .s ("Invalid numeric values: " ++ e))]⟩
                | .ok glucose =>
                  if glucose < 0 ∨ glucose > 500 then
                    ⟨400, [("error", .s "Glucose level must be between 0 and 500")]⟩
                  else
                    match data.lookup "bmi" with
                    | none => ⟨500, [("error", .s "Internal server error"),
                                     ("message", .s "KeyError: bmi")]⟩
                    | some vBmi =>
                      match pyFloat vBmi with
                      | .error e =>
                        ⟨400, [("error", .s ("Invalid numeric values: " ++ e))]⟩
                      | .ok bmi =>
                        if bmi < 10 ∨ bmi > 60 then
                          ⟨400, [("error", .s "BMI must be between 10 and 60")]⟩
                        else
                          let patientData := buildPatientData data age glucose bmi
                          let result :=
                            if mlAvail then predict_risk st patientData
                            else demoModeResult
                          ⟨200, [("status", .s "success"),
                                 ("timestamp", .nested),
                                 ("prediction", .pred result),
                                 ("patient_summary", .nested)]⟩

/-- models.py User.find_by_email (lines 60-63): emails are stored
lowercased, lookup lowercases its argument. -/
def find_by_email (users : List UserR) (email : String) : Option UserR :=
  users.find? (fun u => u.email = email.toLower)

/-- The /api/auth/login handler (app.py lines 219-265).  checkHash is
werkzeug's check_password_hash on the stored salted hash; calling it (or
.lower()) on a non-string value raises, which the outer except turns into
a 500. -/
def loginEndpoint (checkHash : String → String → Bool) (users : List UserR)
    (now : Timestamp) (req : Request) : Resp :=
  if ¬ req.isJson then ⟨400, [("error", .s "Request must be JSON")]⟩
  else
    match req.body with
    | none => ⟨500, [("error", .s "Login failed"),
                     ("message", .s "AttributeError: get")]⟩
    | some data =>
      if ¬ pyBool (getDefault data "email" .null) ∨
         ¬ pyBool (getDefault data "password" .null) then
        ⟨400, [("error", .s "Email and password required")]⟩
      else
        match getDefault data "email" .null with
        | .str em =>
          match find_by_email users em with
          | none => ⟨401, [("error", .s "Invalid credentials")]⟩
          | some u =>
            match getDefault data "password" .null with
            | .str pw =>
              if ¬ checkHash u.passwordHash pw then
                ⟨401, [("error", .s "Invalid credentials")]⟩
              else if ¬ u.isActive then
                ⟨401, [("error", .s "Account is deactivated")]⟩
              else
                ⟨200, [("status", .s "success"),
                       ("message", .s "Login successful"),
                       ("access_token", .s (makeToken u.id now)),
                       ("user", .nested)]⟩
            | _ => ⟨500, [("error", .s "Login failed"),
                          ("message", .s "TypeError: password")]⟩
        | _ => ⟨500, [("error", .s "Login failed"),
                      ("message", .s "AttributeError: lower")]⟩

/-- A required field that is absent from the data appears in the
missing-field list. -/
theorem mem_missingFields_of_lookup_none (data : PatientData) (f : String)
    (hf : f ∈ requiredFields) (h : data.lookup f = none) :
    f ∈ missingFields data := by
  unfold missingFields
  rw [List.mem_filter]
  refine ⟨hf, ?_⟩
  simp [h]

/-! ## Persistence: predictions, statistics and deletion (models.py) -/

/-- A calendar date (the statistics code only compares datetimes after
normalizing to midnight, so dates suffice). -/
structure DateT where
  year : ℕ
  month : ℕ
  day : ℕ
deriving DecidableEq

/-- Chronological order on dates. -/
def dateLe (a b : DateT) : Bool :=
  decide (a.year < b.year ∨ (a.year = b.year ∧
    (a.month < b.month ∨ (a.month = b.month ∧ a.day ≤ b.day))))

def isLeapYear (y : ℕ) : Bool :=
  decide ((y % 4 = 0 ∧ y % 100 ≠ 0) ∨ y % 400 = 0)

def daysInMonth (y m : ℕ) : ℕ :=
  if m = 2 then (if isLeapYear y then 29 else 28)
  else if m = 4 ∨ m = 6 ∨ m = 9 ∨ m = 11 then 30
  else 31

/-- The week_ago computation of get_user_statistics (models.py line 239):
day−7 in the same month when the day allows it, otherwise day 30 of the
previous month.  datetime.replace validates its arguments, so January
(month−1 = 0) and a 30th of February raise ValueError. -/
def weekAgo (now : DateT) : Except String DateT :=
  if now.day > 7 then
    if 1 ≤ now.day - 7 ∧ now.day - 7 ≤ daysInMonth now.year now.month then
      .ok ⟨now.year, now.month, now.day - 7⟩
    else .error "ValueError: day is out of range for month"
  else
    if 1 ≤ now.month - 1 ∧ now.month - 1 ≤ 12 ∧
       30 ≤ daysInMonth now.year (now.month - 1) then
      .ok ⟨now.year, now.month - 1, 30⟩
    else .error "ValueError: invalid replace arguments"

/-- A row of the predictions table (models.py lines 80-117), restricted to
the columns the statistics and deletion code reads; the remaining columns
are write-only snapshots of the input. -/
structure PredRow where
  id : ℕ
  user_id : ℕ
  risk_level : String
  probability_score : ℚ
  age : ℕ
  created_at : DateT
deriving DecidableEq

/-- Round to d decimal places (Python round on idealized floats). -/
def roundTo (d : ℕ) (q : ℚ) : ℚ :=
  (roundHalfEven (q * 10 ^ d) : ℚ) / 10 ^ d

/-- The aggregate returned by Prediction.get_user_statistics; the
risk_distribution dict is flattened into its three entries. -/
structure StatsR where
  total_predictions : ℕ
  low : ℕ
  moderate : ℕ
  high : ℕ
  average_age : ℚ
  recent_predictions : ℕ
  average_probability : ℚ
deriving DecidableEq

/-- Prediction.get_user_statistics (models.py lines 217-262).  The
zero-prediction early return precedes the week_ago date arithmetic; ages
are collected under Python truthiness (age 0 is skipped), probability
scores come from a non-nullable column and are all collected. -/
def get_user_statistics (preds : List PredRow) (uid : ℕ) (now : DateT) :
    Except String StatsR :=
  let mine := preds.filter (fun p => p.user_id = uid)
  if mine = [] then
    .ok ⟨0, 0, 0, 0, 0, 0, 0⟩
  else
    match weekAgo now with
    | .error e => .error e
    | .ok wk =>
      let ages := (mine.filter (fun p => p.age ≠ 0)).map (fun p => (p.age : ℚ))
      let probs := mine.map (fun p => p.probability_score)
      .ok ⟨mine.length,
           (mine.filter (fun p => p.risk_level = "LOW")).length,
           (mine.filter (fun p => p.risk_level = "MODERATE")).length,
           (mine.filter (fun p => p.risk_level = "HIGH")).length,
           (if ages ≠ [] then roundTo 1 (ages.sum / ages.length) else 0),
           (mine.filter (fun p => dateLe wk p.created_at)).length,
           (if probs ≠ [] then roundTo 3 (probs.sum / probs.length) else 0)⟩

/-- The /api/statistics handler (app.py lines 472-494): 401 without a
user, 500 when get_user_statistics raises, otherwise 200 with the stats. -/
def statisticsEndpoint (users : List UserR) (preds : List PredRow)
    (authHeader : Option String) (now : DateT) : ℕ × Option StatsR :=
  match get_current_user users authHeader with
  | none => (401, none)
  | some u =>
    match get_user_statistics preds u.id now with
    | .ok s => (200, some s)
    | .error _ => (500, none)

/-- The database state: the users and predictions tables. -/
structure DBState where
  users : List UserR
  preds : List PredRow
deriving DecidableEq

/-- The state-changing operations the schema admits on the two tables. -/
inductive DBOp where
  | addUser (u : UserR)
  | deleteUser (uid : ℕ)
  | addPrediction (p : PredRow)
  | deletePrediction (pid uid : ℕ)

/-- One database operation.  Deleting a user cascades to its predictions
(models.py line 25, cascade all-delete-orphan); inserting a prediction
whose non-nullable user_id foreign key (models.py line 86) references no
existing user is rejected by the constraint and leaves the state
unchanged. -/
def applyOp (db : DBState) : DBOp → DBState
  | .addUser u => ⟨db.users ++ [u], db.preds⟩
  | .deleteUser uid =>
    ⟨db.users.filter (fun u => u.id ≠ uid),
     db.preds.filter (fun p => p.user_id ≠ uid)⟩
  | .addPrediction p =>
    if db.users.any (fun u => u.id = p.user_id) then
      ⟨db.users, db.preds ++ [p]⟩
    else db
  | .deletePrediction pid uid =>
    ⟨db.users, db.preds.filter (fun p => ¬(p.id = pid ∧ p.user_id = uid))⟩

/-- Referential integrity: every prediction row references an existing
user. -/
def refIntact (db : DBState) : Prop :=
  ∀ p ∈ db.preds, ∃ u ∈ db.users, u.id = p.user_id

/-- The DELETE /api/predictions/id handler (app.py lines 496-532): find
the prediction by id AND owner; 404 (state unchanged) when there is none,
otherwise delete that row (primary keys are unique, so the filter removes
exactly the found row) and report success. -/
def deletePredictionEndpoint (users : List UserR) (preds : List PredRow)
    (authHeader : Option String) (pid : ℕ) : Resp × List PredRow :=
  match get_current_user users authHeader with
  | none => (⟨401, [("error", .s "Authentication required")]⟩, preds)
  | some u =>
    match preds.find? (fun p => p.id = pid ∧ p.user_id = u.id) with
    | none =>
      (⟨404, [("error", .s "Prediction not found"),
              ("message", .s ("No prediction found with ID " ++
                String.mk (natToDigits pid)))]⟩, preds)
    | some _ =>
      (⟨200, [("status", .s "success"),
              ("message", .s ("Prediction " ++ String.mk (natToDigits pid) ++
                " deleted successfully")),
              ("timestamp", .nested)]⟩,
       preds.filter (fun p => ¬(p.id = pid ∧ p.user_id = u.id)))

/-- C1: for every probability p in [0,1], _classify_risk_level returns LOW
when p < 0.3, MODERATE when 0.3 ≤ p < 0.7, and HIGH when p ≥ 0.7; in
particular p = 0.3 yields MODERATE (not LOW) and p = 0.7 yields HIGH. -/
theorem classify_risk_level_spec (p : ℚ) (hp0 : 0 ≤ p) (hp1 : p ≤ 1) :
    (p < 3/10 → classifyRiskLevel p = "LOW") ∧
    (3/10 ≤ p → p < 7/10 → classifyRiskLevel p = "MODERATE") ∧
    (7/10 ≤ p → classifyRiskLevel p = "HIGH") ∧
    classifyRiskLevel (3/10) = "MODERATE" ∧
    classifyRiskLevel (7/10) = "HIGH" := by
  refine ⟨?_, ?_, ?_, by norm_num [classifyRiskLevel], by norm_num [classifyRiskLevel]⟩
  · intro h
    simp [classifyRiskLevel, h]
  · intro h1 h2
    simp [classifyRiskLevel, not_lt.mpr h1, h2]
  · intro h
    simp [classifyRiskLevel, not_lt.mpr (by linarith : (3:ℚ)/10 ≤ p),
      not_lt.mpr h]

/-- Witness for C1 at the concrete probability 1/2 (in the MODERATE band). -/
theorem classify_risk_level_spec_witness :
    classifyRiskLevel (1/2) = "MODERATE" :=
  (classify_risk_level_spec (1/2) (by norm_num) (by norm_num)).2.1
    (by norm_num) (by norm_num)

/-- C2: for every probability p in [0,1], _calculate_confidence returns HIGH
when p < 0.2 or p > 0.8, MEDIUM when (p < 0.4 or p > 0.6) outside the HIGH
band, and LOW otherwise; the HIGH band is tested first. -/
theorem calculate_confidence_spec (p : ℚ) (hp0 : 0 ≤ p) (hp1 : p ≤ 1) :
    ((p < 2/10 ∨ p > 8/10) → calculateConfidence p = "HIGH") ∧
    (¬(p < 2/10 ∨ p > 8/10) → (p < 4/10 ∨ p > 6/10) →
      calculateConfidence p = "MEDIUM") ∧
    (4/10 ≤ p → p ≤ 6/10 → calculateConfidence p = "LOW") := by
  refine ⟨?_, ?_, ?_⟩
  · intro h
    simp [calculateConfidence, h]
  · intro h1 h2
    simp [calculateConfidence, h1, h2]
  · intro h1 h2
    have hhigh : ¬(p < 2/10 ∨ p > 8/10) := by
      push_neg
      constructor <;> linarith
    have hmed : ¬(p < 4/10 ∨ p > 6/10) := by
      push_neg
      constructor <;> linarith
    simp [calculateConfidence, hhigh, hmed]

/-- Witness for C2 at the concrete probability 1/10 (HIGH-confidence band). -/
theorem calculate_confidence_spec_witness :
    calculateConfidence (1/10) = "HIGH" :=
  (calculate_confidence_spec (1/10) (by norm_num) (by norm_num)).1
    (Or.inl (by norm_num))

/-- A successful feature-vector build has one entry per feature name. -/
theorem buildVector_length (pd : PatientData) :
    ∀ names v, buildVector pd names = .ok v → v.length = names.length := by
  intro names
  induction names with
  | nil =>
    intro v h
    simp [buildVector] at h
    simp [← h]
  | cons f rest ih =>
    intro v h
    simp only [buildVector] at h
    cases h1 : (match List.lookup f pd with | some w => pyFloat w | none => .ok 0) with
    | error e => rw [h1] at h; exact absurd h (by simp)
    | ok x =>
      rw [h1] at h
      cases h2 : buildVector pd rest with
      | error e => rw [h2] at h; exact absurd h (by simp)
      | ok xs =>
        rw [h2] at h
        simp at h
        subst h
        simp [ih xs h2]

/-- In a successful feature-vector build, a feature name missing from the
data contributes the entry 0.0. -/
theorem buildVector_missing (pd : PatientData) :
    ∀ names v, buildVector pd names = .ok v →
      ∀ i f, names.get? i = some f → List.lookup f pd = none →
        v.get? i = some 0 := by
  intro names
  induction names with
  | nil =>
    intro v _ i f hf
    simp at hf
  | cons g rest ih =>
    intro v h i f hf hmiss
    simp only [buildVector] at h
    cases h1 : (match List.lookup g pd with | some w => pyFloat w | none => .ok 0) with
    | error e => rw [h1] at h; exact absurd h (by simp)
    | ok x =>
      rw [h1] at h
      cases h2 : buildVector pd rest with
      | error e => rw [h2] at h; exact absurd h (by simp)
      | ok xs =>
        rw [h2] at h
        simp at h
        subst h
        cases i with
        | zero =>
          simp at hf
          subst hf
          rw [hmiss] at h1
          simp at h1
          simp [← h1]
        | succ j =>
          rw [List.get?_cons_succ] at hf ⊢
          exact ih xs h2 j f hf hmiss

/-- C3: preprocess_features never raises; a categorical value not among
the encoder's classes is encoded as the default 0; a feature name missing
from the data contributes 0.0 to the feature vector; and when the inner
pipeline raises, the function returns the all-zero vector whose length is
the length of the feature-name list. -/
theorem preprocess_features_spec (st : Predictor) (pd : PatientData) :
    (∀ e, preprocessSteps st pd = .error e →
      preprocess_features st pd = List.replicate st.featureNames.length 0) ∧
    (∀ f v classes, List.lookup f pd = some v →
      List.lookup f st.labelEncoders = some classes → pyStr v ∉ classes →
      encodeCategorical st.labelEncoders pd f = .ok (setKey pd f (.num 0))) ∧
    (∀ d names v, buildVector d names = .ok v →
      ∀ i f, names.get? i = some f → List.lookup f d = none →
        v.get? i = some 0) := by
  refine ⟨?_, ?_, ?_⟩
  · intro e h
    simp [preprocess_features, h]
  · intro f v classes h1 h2 h3
    simp [encodeCategorical, h1, h2, h3]
  · intro d names v h i f hf hmiss
    exact buildVector_missing d names v h i f hf hmiss

/-- A predictor state with no loaded artifacts (used as a concrete witness
input; its feature list has a single entry). -/
def bareFeaturePredictor : Predictor :=
  { model := none
    scaler := none
    labelEncoders := []
    featureNames := ["age"]
    modelName := "Unknown"
    modelVersion := "1.0.0" }

/-- Patient data whose gender field holds a number: with no encoder
available, the manual fallback calls .lower() on it, which raises. -/
def numericGenderPatient : PatientData := [("gender", PyVal.num 5)]

/-- Witness for C3: on the concrete raising input, preprocess_features
returns the all-zero vector of feature-name length. -/
theorem preprocess_features_spec_witness :
    preprocess_features bareFeaturePredictor numericGenderPatient =
      List.replicate 1 0 := by
  have h := (preprocess_features_spec bareFeaturePredictor numericGenderPatient).1
    "AttributeError: lower" (by rfl)
  simpa [bareFeaturePredictor] using h

/-- C5: with a fixed loaded model state, two successive calls of
predict_stroke_risk on the same patient data (the second seeing the
singleton state left by the first) produce the same probability_score,
risk_level and confidence. -/
theorem predict_risk_deterministic (env : Predictor) (g : Option Predictor)
    (pd : PatientData) :
    ((predict_stroke_risk env
        (predict_stroke_risk env g pd).2 pd).1.probability_score =
      (predict_stroke_risk env g pd).1.probability_score) ∧
    ((predict_stroke_risk env
        (predict_stroke_risk env g pd).2 pd).1.risk_level =
      (predict_stroke_risk env g pd).1.risk_level) ∧
    ((predict_stroke_risk env
        (predict_stroke_risk env g pd).2 pd).1.confidence =
      (predict_stroke_risk env g pd).1.confidence) := by
  cases g <;> exact ⟨rfl, rfl, rfl⟩

/-- C4: /api/predict returns 400 whenever the parsed age is outside
[0,120], or the parsed glucose level is outside [0,500], or the parsed BMI
is outside [10,60]; and a request passing the missing-field scan whose
three values are in range (boundaries included) passes validation and gets
a 200. -/
theorem predict_range_validation (st : Predictor) (mlAvail : Bool)
    (data : PatientData) :
    (∀ v a, data.lookup "age" = some v → pyFloat v = .ok a →
      a < 0 ∨ a > 120 →
      (predictEndpoint st mlAvail ⟨true, some data⟩).status = 400) ∧
    (∀ v g, data.lookup "avg_glucose_level" = some v → pyFloat v = .ok g →
      g < 0 ∨ g > 500 →
      (predictEndpoint st mlAvail ⟨true, some data⟩).status = 400) ∧
    (∀ v b, data.lookup "bmi" = some v → pyFloat v = .ok b →
      b < 10 ∨ b > 60 →
      (predictEndpoint st mlAvail ⟨true, some data⟩).status = 400) ∧
    (∀ va a vg g vb b, missingFields data = [] →
      data.lookup "age" = some va → pyFloat va = .ok a →
      0 ≤ a → a ≤ 120 →
      data.lookup "avg_glucose_level" = some vg → pyFloat vg = .ok g →
      0 ≤ g → g ≤ 500 →
      data.lookup "bmi" = some vb → pyFloat vb = .ok b →
      10 ≤ b → b ≤ 60 →
      (predictEndpoint st mlAvail ⟨true, some data⟩).status = 200) := by
  have hpresent : ∀ f, f ∈ requiredFields → missingFields data = [] →
      data.lookup f ≠ none := by
    intro f hf hm h
    have hmem := mem_missingFields_of_lookup_none data f hf h
    rw [hm] at hmem
    exact absurd hmem (List.not_mem_nil f)
  refine ⟨?_, ?_, ?_, ?_⟩
  · intro v a hv hp hr
    have hne : data ≠ [] := by
      intro h
      rw [h] at hv
      exact absurd hv (by simp [List.lookup])
    by_cases hm : missingFields data = []
    · simp [predictEndpoint, hne, hm, hv, hp, eq_true hr]
    · simp [predictEndpoint, hne, hm]
  · intro v g hv hp hr
    have hne : data ≠ [] := by
      intro h
      rw [h] at hv
      exact absurd hv (by simp [List.lookup])
    by_cases hm : missingFields data = []
    · obtain ⟨va, hva⟩ :=
        Option.ne_none_iff_exists'.mp (hpresent "age" (by decide) hm)
      cases hpa : pyFloat va with
      | error e => simp [predictEndpoint, hne, hm, hva, hpa]
      | ok a =>
        by_cases hra : a < 0 ∨ a > 120
        · simp [predictEndpoint, hne, hm, hva, hpa, eq_true hra]
        · simp [predictEndpoint, hne, hm, hva, hpa, hra, hv, hp, eq_true hr]
    · simp [predictEndpoint, hne, hm]
  · intro v b hv hp hr
    have hne : data ≠ [] := by
      intro h
      rw [h] at hv
      exact absurd hv (by simp [List.lookup])
    by_cases hm : missingFields data = []
    · obtain ⟨va, hva⟩ :=
        Option.ne_none_iff_exists'.mp (hpresent "age" (by decide) hm)
      cases hpa : pyFloat va with
      | error e => simp [predictEndpoint, hne, hm, hva, hpa]
      | ok a =>
        by_cases hra : a < 0 ∨ a > 120
        · simp [predictEndpoint, hne, hm, hva, hpa, eq_true hra]
        · obtain ⟨vg, hvg⟩ := Option.ne_none_iff_exists'.mp
            (hpresent "avg_glucose_level" (by decide) hm)
          cases hpg : pyFloat vg with
          | error e =>
            simp [predictEndpoint, hne, hm, hva, hpa, hra, hvg, hpg]
          | ok g =>
            by_cases hrg : g < 0 ∨ g > 500
            · simp [predictEndpoint, hne, hm, hva, hpa, hra, hvg, hpg,
                eq_true hrg]
            · simp [predictEndpoint, hne, hm, hva, hpa, hra, hvg, hpg, hrg,
                hv, hp, eq_true hr]
    · simp [predictEndpoint, hne, hm]
  · intro va a vg g vb b hm hva hpa h0a h1a hvg hpg h0g h1g hvb hpb h0b h1b
    have hne : data ≠ [] := by
      intro h
      rw [h] at hva
      exact absurd hva (by simp [List.lookup])
    have hra : ¬(a < 0 ∨ a > 120) := by
      rw [not_or, not_lt, not_lt]
      exact ⟨h0a, h1a⟩
    have hrg : ¬(g < 0 ∨ g > 500) := by
      rw [not_or, not_lt, not_lt]
      exact ⟨h0g, h1g⟩
    have hrb : ¬(b < 10 ∨ b > 60) := by
      rw [not_or, not_lt, not_lt]
      exact ⟨h0b, h1b⟩
    simp [predictEndpoint, hne, hm, hva, hpa, hra, hvg, hpg, hrg, hvb, hpb,
      hrb]

/-- A concrete over-age request body: every required field present and
well-typed, but age 150 is outside [0,120]. -/
def overAgePatient : PatientData :=
  [("age", .num 150), ("gender", .str "Male"), ("hypertension", .num 1),
   ("heart_disease", .num 0), ("ever_married", .str "Yes"),
   ("work_type", .str "Private"), ("avg_glucose_level", .num 100),
   ("bmi", .num 25), ("smoking_status", .str "never smoked")]

/-- Witness for C4: the concrete over-age request is rejected with 400. -/
theorem predict_range_validation_witness :
    (predictEndpoint bareFeaturePredictor true
      ⟨true, some overAgePatient⟩).status = 400 :=
  (predict_range_validation bareFeaturePredictor true overAgePatient).1
    (.num 150) 150 rfl rfl (Or.inr (by norm_num))

/-- Counterexample to C6 as stated: the 400 response that /api/predict
returns for an out-of-range age is a JSON object with an error field but
with neither a message nor a status_code field. -/
theorem error_body_counterexample :
    (predictEndpoint bareFeaturePredictor true
      ⟨true, some overAgePatient⟩).status = 400 ∧
    hasKey (predictEndpoint bareFeaturePredictor true
      ⟨true, some overAgePatient⟩) "error" = true ∧
    hasKey (predictEndpoint bareFeaturePredictor true
      ⟨true, some overAgePatient⟩) "message" = false ∧
    hasKey (predictEndpoint bareFeaturePredictor true
      ⟨true, some overAgePatient⟩) "status_code" = false := by
  refine ⟨?_, ?_, ?_, ?_⟩ <;> rfl

/-- C6 (amended): the responses of the four registered error handlers
(400, 401, 404, 500) contain all three of error, message and status_code;
error responses built directly inside the predict and login route handlers
always contain the error field, but not necessarily the other two. -/
theorem error_body_spec :
    (hasKey errorHandler400 "error" = true ∧
     hasKey errorHandler400 "message" = true ∧
     hasKey errorHandler400 "status_code" = true) ∧
    (hasKey errorHandler401 "error" = true ∧
     hasKey errorHandler401 "message" = true ∧
     hasKey errorHandler401 "status_code" = true) ∧
    (hasKey errorHandler404 "error" = true ∧
     hasKey errorHandler404 "message" = true ∧
     hasKey errorHandler404 "status_code" = true) ∧
    (hasKey errorHandler500 "error" = true ∧
     hasKey errorHandler500 "message" = true ∧
     hasKey errorHandler500 "status_code" = true) ∧
    (∀ st mlAvail req, (predictEndpoint st mlAvail req).status = 200 ∨
      hasKey (predictEndpoint st mlAvail req) "error" = true) ∧
    (∀ checkHash users now req,
      (loginEndpoint checkHash users now req).status = 200 ∨
      hasKey (loginEndpoint checkHash users now req) "error" = true) := by
  refine ⟨⟨rfl, rfl, rfl⟩, ⟨rfl, rfl, rfl⟩, ⟨rfl, rfl, rfl⟩,
    ⟨rfl, rfl, rfl⟩, ?_, ?_⟩
  · intro st mlAvail req
    unfold predictEndpoint
    repeat' split
    all_goals first | (left; rfl) | (right; rfl)
  · intro checkHash users now req
    unfold loginEndpoint
    repeat' split
    all_goals first | (left; rfl) | (right; rfl)

/-- C8: referential integrity: every database operation preserves the
invariant that each prediction row references an existing user, the
invariant holds along any operation sequence from the empty database, and
deleting a user leaves no prediction owned by that user. -/
theorem prediction_user_integrity :
    (∀ db op, refIntact db → refIntact (applyOp db op)) ∧
    (∀ ops, refIntact (List.foldl applyOp ⟨[], []⟩ ops)) ∧
    (∀ db uid p, p ∈ (applyOp db (.deleteUser uid)).preds →
      p.user_id ≠ uid) := by
  have step : ∀ db op, refIntact db → refIntact (applyOp db op) := by
    intro db op hinv
    cases op with
    | addUser u =>
      intro p hp
      obtain ⟨w, hw, hwid⟩ := hinv p hp
      exact ⟨w, List.mem_append_left _ hw, hwid⟩
    | deleteUser uid =>
      intro p hp
      simp only [applyOp] at hp
      obtain ⟨hmem, hdec⟩ := List.mem_filter.mp hp
      obtain ⟨w, hw, hwid⟩ := hinv p hmem
      refine ⟨w, List.mem_filter.mpr ⟨hw, ?_⟩, hwid⟩
      have hne : p.user_id ≠ uid := of_decide_eq_true hdec
      exact decide_eq_true (by rw [hwid]; exact hne)
    | addPrediction p₀ =>
      intro p hp
      by_cases hc : db.users.any (fun u => u.id = p₀.user_id) = true
      · simp only [applyOp, if_pos hc] at hp ⊢
        rcases List.mem_append.mp hp with h | h
        · exact hinv p h
        · have hpe : p = p₀ := by simpa using h
          subst hpe
          obtain ⟨u, hu, hid⟩ := List.any_eq_true.mp hc
          exact ⟨u, hu, of_decide_eq_true hid⟩
      · simp only [applyOp, if_neg hc] at hp ⊢
        exact hinv p hp
    | deletePrediction pid uid =>
      intro p hp
      simp only [applyOp] at hp
      exact hinv p (List.mem_filter.mp hp).1
  have fold : ∀ ops db, refIntact db →
      refIntact (List.foldl applyOp db ops) := by
    intro ops
    induction ops with
    | nil => intro db h; exact h
    | cons op rest ih => intro db h; exact ih _ (step db op h)
  refine ⟨step, fun ops => fold ops ⟨[], []⟩ ?_, ?_⟩
  · intro p hp
    exact absurd hp (List.not_mem_nil p)
  · intro db uid p hp
    simp only [applyOp] at hp
    exact of_decide_eq_true (List.mem_filter.mp hp).2

/-- The seeded demo user (models.py seed_demo_data), used as concrete
witness data. -/
def demoUser : UserR :=
  ⟨1, "Demo User", "demo@strokeprediction.com", "pbkdf2-salted-hash", true⟩

/-- A concrete stored prediction row owned by the demo user. -/
def demoPredRow : PredRow := ⟨1, 1, "LOW", 15/100, 28, ⟨2026, 1, 1⟩⟩

/-- Witness for C8: inserting a prediction for an existing user from a
concrete valid state preserves referential integrity. -/
theorem prediction_user_integrity_witness :
    refIntact (applyOp ⟨[demoUser], []⟩ (.addPrediction demoPredRow)) :=
  prediction_user_integrity.1 ⟨[demoUser], []⟩ (.addPrediction demoPredRow)
    (fun p hp => absurd hp (List.not_mem_nil p))

/-- C9: for a user with zero stored predictions, get_user_statistics
returns the all-zero aggregate without raising, and GET /api/statistics
returns it with status 200. -/
theorem statistics_empty_spec (users : List UserR) (preds : List PredRow)
    (auth : Option String) (now : DateT) (u : UserR)
    (hu : get_current_user users auth = some u)
    (hz : preds.filter (fun p => p.user_id = u.id) = []) :
    get_user_statistics preds u.id now = .ok ⟨0, 0, 0, 0, 0, 0, 0⟩ ∧
    statisticsEndpoint users preds auth now =
      (200, some ⟨0, 0, 0, 0, 0, 0, 0⟩) := by
  have h1 : get_user_statistics preds u.id now = .ok ⟨0, 0, 0, 0, 0, 0, 0⟩ := by
    unfold get_user_statistics
    rw [hz]
    simp
  exact ⟨h1, by simp [statisticsEndpoint, hu, h1]⟩

/-- Witness for C9: the demo user, authenticated by a fresh token, with an
empty predictions table. -/
theorem statistics_empty_spec_witness :
    statisticsEndpoint [demoUser] [] (some "Bearer user_token_1_0.0")
      ⟨2026, 10, 12⟩ = (200, some ⟨0, 0, 0, 0, 0, 0, 0⟩) :=
  (statistics_empty_spec [demoUser] [] (some "Bearer user_token_1_0.0")
    ⟨2026, 10, 12⟩ demoUser rfl rfl).2

/-- C10: DELETE /api/predictions/id deletes a prediction only when it
exists and is owned by the authenticated user: without authentication the
result is 401 and the table is unchanged; when no row matches both the id
and the owner the result is 404 and the table is unchanged; when a row
matches, the response is 200, exactly the rows matching id-and-owner are
removed, and every removed row was owned by the authenticated user. -/
theorem delete_prediction_spec (users : List UserR) (preds : List PredRow)
    (auth : Option String) (pid : ℕ) :
    (get_current_user users auth = none →
      (deletePredictionEndpoint users preds auth pid).1.status = 401 ∧
      (deletePredictionEndpoint users preds auth pid).2 = preds) ∧
    (∀ u, get_current_user users auth = some u →
      (∀ p ∈ preds, ¬(p.id = pid ∧ p.user_id = u.id)) →
      (deletePredictionEndpoint users preds auth pid).1.status = 404 ∧
      (deletePredictionEndpoint users preds auth pid).2 = preds) ∧
    (∀ u p, get_current_user users auth = some u →
      p ∈ preds → p.id = pid → p.user_id = u.id →
      (deletePredictionEndpoint users preds auth pid).1.status = 200 ∧
      (deletePredictionEndpoint users preds auth pid).2 =
        preds.filter (fun q => ¬(q.id = pid ∧ q.user_id = u.id)) ∧
      (∀ q ∈ preds, q ∉ (deletePredictionEndpoint users preds auth pid).2 →
        q.id = pid ∧ q.user_id = u.id)) := by
  refine ⟨?_, ?_, ?_⟩
  · intro h
    constructor <;> simp [deletePredictionEndpoint, h]
  · intro u hu hnone
    have hf : preds.find?
        (fun p => decide (p.id = pid) && decide (p.user_id = u.id)) =
        none := by
      rw [List.find?_eq_none]
      intro p hp
      simpa using hnone p hp
    constructor <;> simp [deletePredictionEndpoint, hu, hf]
  · intro u p hu hp hid huid
    have hsome : (preds.find?
        (fun q => decide (q.id = pid) && decide (q.user_id = u.id))).isSome := by
      rw [List.find?_isSome]
      exact ⟨p, hp, by simp [hid, huid]⟩
    obtain ⟨q₀, hq₀⟩ := Option.isSome_iff_exists.mp hsome
    have h2 : (deletePredictionEndpoint users preds auth pid).2 =
        preds.filter (fun q => ¬(q.id = pid ∧ q.user_id = u.id)) := by
      simp [deletePredictionEndpoint, hu, hq₀]
    refine ⟨by simp [deletePredictionEndpoint, hu, hq₀], h2, ?_⟩
    intro q hq hnq
    rw [h2] at hnq
    by_contra hc
    exact hnq (List.mem_filter.mpr ⟨hq, decide_eq_true hc⟩)

/-- Witness for C10: with the demo user authenticated and one stored row,
deleting the owned row id 1 succeeds, and asking for the absent id 2
yields 404. -/
theorem delete_prediction_spec_witness :
    (deletePredictionEndpoint [demoUser] [demoPredRow]
      (some "Bearer user_token_1_0.0") 1).1.status = 200 ∧
    (deletePredictionEndpoint [demoUser] [demoPredRow]
      (some "Bearer user_token_1_0.0") 2).1.status = 404 := by
  constructor
  · exact ((delete_prediction_spec [demoUser] [demoPredRow]
      (some "Bearer user_token_1_0.0") 1).2.2 demoUser demoPredRow rfl
      (by simp) rfl rfl).1
  · refine ((delete_prediction_spec [demoUser] [demoPredRow]
      (some "Bearer user_token_1_0.0") 2).2.1 demoUser rfl ?_).1
    intro p hp
    have hpe : p = demoPredRow := by simpa using hp
    subst hpe
    decide

end BrainML
